import Mathlib

/-
  Verification of the ComfyUI mesh-agent integration
  (src/integrations/comfyui_integration.py) against its specification.

  The module is embedded shallowly: every network call is parametrised by an
  explicit outcome value (the reply of the external service, or the exception
  it raised), so each Python method becomes a pure Lean function of its
  arguments and of those outcomes.  JSON dictionaries with a known key set are
  embedded as structures of optional fields, mirroring Python dict.get with
  its defaults.
-/

namespace AgentMesh

/-- Module-level constant MESH_API_URL from the source header. -/
def MESH_API_URL : String := "http://localhost:4000"

/-- Module-level constant MESH_API_KEY from the source header. -/
def MESH_API_KEY : String := "openclaw-mesh-default-key"

/-- Module-level constant COMFYUI_URL from the source header. -/
def COMFYUI_URL : String := "http://localhost:8188"

/-- Module-level constant COMFYUI_DISTRIBUTED_URL from the source header. -/
def COMFYUI_DISTRIBUTED_URL : String := COMFYUI_URL ++ "/distributed"

/-- Module-level constant AGENT_NAME from the source header. -/
def AGENT_NAME : String := "ComfyUI-Mesh-Agent"

/-- A JSON value occurring in a ComfyUI workflow node input: a string, a
number, or a node reference `[node, slot]`. -/
inductive JVal where
  | str (s : String)
  | nat (n : Nat)
  | ref (node : String) (slot : Nat)
deriving DecidableEq, Repr

/-- One node of a ComfyUI workflow graph: its key in the workflow dict, its
class_type, and its inputs dict (kept as an association list in source
order). -/
structure WNode where
  id : String
  class_type : String
  inputs : List (String × JVal)
deriving DecidableEq, Repr

/-- The decoded `prompt` field of a request payload, as read by the three
handlers: generate_image reads keys positive and negative, generate_video
reads key prompt.  A missing key is `none` (Python dict.get default). -/
structure PromptDict where
  positive : Option String := none
  negative : Option String := none
  prompt : Option String := none
deriving DecidableEq, Repr

/-- The decoded `options` field of a request payload; the union of the keys
read by the three handlers, each `none` when absent. -/
structure OptionsDict where
  seed : Option Nat := none
  steps : Option Nat := none
  cfg : Option Nat := none
  sampler : Option String := none
  model : Option String := none
  width : Option Nat := none
  height : Option Nat := none
  frames : Option Nat := none
  filename : Option String := none
  delegate_master : Option Bool := none
  worker_ids : Option (List String) := none
deriving DecidableEq, Repr

/-- A decoded message content payload (the JSON object carried in the
transport message's `content` string). -/
structure ContentDict where
  type : Option String := none
  request_type : Option String := none
  prompt : Option PromptDict := none
  options : Option OptionsDict := none
deriving DecidableEq, Repr

/-- The raw `content` string of a transport message, represented by the
outcome of `json.loads` on it: either it raises (with the given exception
text) or it yields a JSON object. -/
inductive RawContent where
  | malformed (e : String)
  | dict (c : ContentDict)
deriving DecidableEq, Repr

/-- A transport message as returned by the mesh messages endpoint; `none`
content means the `content` key is absent (the code then decodes the default
string, an empty JSON object). -/
structure MeshMessage where
  sender : Option String := none
  content : Option RawContent := none
deriving DecidableEq, Repr

/-- The result of `json.loads(message.get("content", "{}"))`. -/
def decodeContent : Option RawContent → Except String ContentDict
  | none => Except.ok {}
  | some (RawContent.malformed e) => Except.error e
  | some (RawContent.dict c) => Except.ok c

/-- The mutable fields of a ComfyUIMeshAgent object. -/
structure AgentState where
  mesh_url : String
  mesh_key : String
  comfyui_url : String
  comfyui_distributed_url : String
  agent_name : String
  mesh_agent_id : Option String
  running : Bool
deriving DecidableEq, Repr

/-- ComfyUIMeshAgent.__init__ : agent_name defaults to AGENT_NAME,
mesh_agent_id starts unset, running starts false. -/
def agentInit (agent_name : Option String) : AgentState :=
  ⟨MESH_API_URL, MESH_API_KEY, COMFYUI_URL, COMFYUI_DISTRIBUTED_URL,
   agent_name.getD AGENT_NAME, none, false⟩

/-- Outcome of one requests.post to the ComfyUI backend: an HTTP reply
(status code plus the optional prompt_id / worker_count fields of its JSON
body) or a raised exception with text `msg`. -/
inductive NetResult where
  | resp (status_code : Nat) (prompt_id : Option String) (worker_count : Option Nat)
  | exn (msg : String)
deriving DecidableEq, Repr

/-- A result dict as returned by the three request handlers: the keys that
can occur are status, prompt_id, worker_count and error, each present or
not. -/
structure ResultDict where
  status : Option String := none
  prompt_id : Option String := none
  worker_count : Option Nat := none
  error : Option String := none
deriving DecidableEq, Repr

/-- The error-result dict `{"error": e}`. -/
def mkError (e : String) : ResultDict := { error := some e }

/-- The image workflow literal built by generate_image, with the dict.get
defaults of the source. -/
def imageWorkflow (prompt : PromptDict) (options : OptionsDict) : List WNode :=
  [ ⟨"3", "CLIPTextEncode",
      [("text", JVal.str (prompt.positive.getD "")), ("clip", JVal.ref "4" 0)]⟩,
    ⟨"4", "CLIPTextEncode",
      [("text", JVal.str (prompt.negative.getD "bad quality")), ("clip", JVal.ref "4" 0)]⟩,
    ⟨"5", "KSampler",
      [("seed", JVal.nat (options.seed.getD 42)),
       ("steps", JVal.nat (options.steps.getD 20)),
       ("cfg", JVal.nat (options.cfg.getD 8)),
       ("sampler_name", JVal.str (options.sampler.getD "euler")),
       ("scheduler", JVal.str "normal"),
       ("model", JVal.ref "6" 0),
       ("positive", JVal.ref "3" 0),
       ("negative", JVal.ref "4" 0),
       ("latent_image", JVal.ref "7" 0)]⟩,
    ⟨"6", "CheckpointLoaderSimple",
      [("ckpt_name", JVal.str (options.model.getD "sd_xl_base_1.0.safetensors"))]⟩,
    ⟨"7", "EmptyLatentImage",
      [("width", JVal.nat (options.width.getD 1024)),
       ("height", JVal.nat (options.height.getD 1024)),
       ("batch_size", JVal.nat 1)]⟩,
    ⟨"8", "VAEDecode",
      [("samples", JVal.ref "5" 0), ("vae", JVal.ref "6" 0)]⟩,
    ⟨"9", "SaveImage",
      [("images", JVal.ref "8" 0),
       ("filename_prefix", JVal.str (options.filename.getD "mesh_generated"))]⟩ ]

/-- The video workflow literal built by generate_video, with the dict.get
defaults of the source. -/
def videoWorkflow (prompt : PromptDict) (options : OptionsDict) : List WNode :=
  [ ⟨"unet", "UNETLoader", [("unet_name", JVal.str "wan2.2_ti2v_5B_fp16.safetensors")]⟩,
    ⟨"clip", "CLIPLoader",
      [("clip_name", JVal.str "umt5_xxl_fp8_e4m3fn_scaled.safetensors"), ("type", JVal.str "wan")]⟩,
    ⟨"vae", "VAELoader", [("vae_name", JVal.str "wan2.2_vae.safetensors")]⟩,
    ⟨"pos", "CLIPTextEncode",
      [("clip", JVal.ref "clip" 0), ("text", JVal.str (prompt.prompt.getD ""))]⟩,
    ⟨"neg", "CLIPTextEncode",
      [("clip", JVal.ref "clip" 0), ("text", JVal.str "blurry, distorted, cartoon")]⟩,
    ⟨"model_shift", "ModelSamplingSD3",
      [("model", JVal.ref "unet" 0), ("shift", JVal.nat 8)]⟩,
    ⟨"i2v", "Wan22ImageToVideoLatent",
      [("vae", JVal.ref "vae" 0),
       ("width", JVal.nat (options.width.getD 1280)),
       ("height", JVal.nat (options.height.getD 704)),
       ("length", JVal.nat (options.frames.getD 125)),
       ("batch_size", JVal.nat 1)]⟩,
    ⟨"samp", "KSampler",
      [("seed", JVal.nat (options.seed.getD 77777)),
       ("steps", JVal.nat 20),
       ("cfg", JVal.nat 5),
       ("sampler_name", JVal.str "uni_pc"),
       ("model", JVal.ref "model_shift" 0),
       ("positive", JVal.ref "pos" 0),
       ("negative", JVal.ref "neg" 0),
       ("latent_image", JVal.ref "i2v" 0)]⟩,
    ⟨"decode", "VAEDecode", [("samples", JVal.ref "samp" 0), ("vae", JVal.ref "vae" 0)]⟩,
    ⟨"create_video", "CreateVideo", [("images", JVal.ref "decode" 0), ("fps", JVal.nat 24)]⟩,
    ⟨"save", "SaveVideo",
      [("video", JVal.ref "create_video" 0),
       ("filename_prefix", JVal.str (options.filename.getD "mesh_video")),
       ("format", JVal.str "mp4")]⟩ ]

/-- The JSON body posted to the distributed queue endpoint by
queue_distributed_workflow. -/
structure DistributedPayload where
  prompt : Option PromptDict
  client_id : String
  delegate_master : Bool
  enabled_worker_ids : List String
deriving DecidableEq, Repr

/-- One HTTP submission to the ComfyUI backend, recorded so that theorems can
talk about what was posted where. -/
inductive BackendCall where
  | promptPost (url : String) (graph : List WNode) (client_id : String)
  | distPost (url : String) (payload : DistributedPayload)
deriving DecidableEq, Repr

/-- generate_image.  A `none` prompt reproduces the Python AttributeError of
calling .get on None, caught by the handler's own try before any post; the
outcome of the post itself is the `net` parameter. -/
def generate_image (s : AgentState) (prompt : Option PromptDict) (options : OptionsDict)
    (net : NetResult) : List BackendCall × ResultDict :=
  match prompt with
  | none => ([], mkError "AttributeError: NoneType object has no attribute get")
  | some p =>
    let call := BackendCall.promptPost (s.comfyui_url ++ "/api/prompt")
      (imageWorkflow p options) "mesh-agent"
    match net with
    | NetResult.exn m => ([call], mkError m)
    | NetResult.resp code pid _ =>
      if code = 200 then ([call], { status := some "queued", prompt_id := pid })
      else ([call], mkError ("ComfyUI error: " ++ toString code))

/-- generate_video, analogous to generate_image. -/
def generate_video (s : AgentState) (prompt : Option PromptDict) (options : OptionsDict)
    (net : NetResult) : List BackendCall × ResultDict :=
  match prompt with
  | none => ([], mkError "AttributeError: NoneType object has no attribute get")
  | some p =>
    let call := BackendCall.promptPost (s.comfyui_url ++ "/api/prompt")
      (videoWorkflow p options) "mesh-agent-video"
    match net with
    | NetResult.exn m => ([call], mkError m)
    | NetResult.resp code pid _ =>
      if code = 200 then ([call], { status := some "queued", prompt_id := pid })
      else ([call], mkError ("ComfyUI error: " ++ toString code))

/-- queue_distributed_workflow.  The request's prompt is passed through
verbatim as the job graph; delegate_master defaults to false and worker_ids
to the empty list. -/
def queue_distributed_workflow (s : AgentState) (workflow : Option PromptDict)
    (options : OptionsDict) (net : NetResult) : List BackendCall × ResultDict :=
  let payload : DistributedPayload :=
    ⟨workflow, "mesh-distributed", options.delegate_master.getD false, options.worker_ids.getD []⟩
  let call := BackendCall.distPost (s.comfyui_distributed_url ++ "/queue") payload
  match net with
  | NetResult.exn m => ([call], mkError m)
  | NetResult.resp code pid wc =>
    if code = 200 then
      ([call], { status := some "distributed_queued", prompt_id := pid,
                 worker_count := some (wc.getD 1) })
    else ([call], mkError ("Distributed API error: " ++ toString code))

/-- str(x) for the optional request_type, as Python renders it into the
unknown-request error message. -/
def pyShowOpt : Option String → String
  | none => "None"
  | some t => t

/-- process_inference_request: decode the content (an exception becomes an
error dict via the handler's except clause), skip non-inference_request
payloads, and dispatch on request_type.  Also records the backend calls
made. -/
def process_inference_request (s : AgentState) (message : MeshMessage) (net : NetResult) :
    List BackendCall × Option ResultDict :=
  match decodeContent message.content with
  | Except.error e => ([], some (mkError e))
  | Except.ok content =>
    if content.type = some "inference_request" then
      let options := content.options.getD {}
      if content.request_type = some "image_generation" then
        let r := generate_image s content.prompt options net
        (r.1, some r.2)
      else if content.request_type = some "video_generation" then
        let r := generate_video s content.prompt options net
        (r.1, some r.2)
      else if content.request_type = some "distributed_inference" then
        let r := queue_distributed_workflow s content.prompt options net
        (r.1, some r.2)
      else ([], some (mkError ("Unknown request type: " ++ pyShowOpt content.request_type)))
    else ([], none)

/-- The JSON object serialised into an outbound response's content string. -/
structure ResponseEnvelope where
  type : String
  original_request : ContentDict
  response : ResultDict
deriving DecidableEq, Repr

/-- The body posted to the mesh send endpoint by send_response. -/
structure SentResponse where
  content : ResponseEnvelope
  sender : String
  recipient : Option String
  priority : String
deriving DecidableEq, Repr

/-- send_response.  The payload is built before the try block: re-decoding
the original content string raises out of the function (Except.error); the
post inside the try never raises out and its failure is only logged, so a
built payload always counts as sent. -/
def send_response (s : AgentState) (original_message : MeshMessage) (response : ResultDict) :
    Except String SentResponse :=
  match decodeContent original_message.content with
  | Except.error e => Except.error e
  | Except.ok orig =>
    Except.ok ⟨⟨"inference_response", orig, response⟩, s.agent_name,
      original_message.sender, "normal"⟩

/-- One dispatch cycle's message loop in listen_for_requests: each message is
processed; a non-none result is sent.  An exception escaping send_response
reaches the cycle-level except clause: the rest of the batch is dropped and
the flag `true` (aborted) is returned. -/
def run_batch (s : AgentState) : List (MeshMessage × NetResult) → List SentResponse × Bool
  | [] => ([], false)
  | (msg, net) :: rest =>
    match (process_inference_request s msg net).2 with
    | none => run_batch s rest
    | some r =>
      match send_response s msg r with
      | Except.error _ => ([], true)
      | Except.ok sent =>
        let tail := run_batch s rest
        (sent :: tail.1, tail.2)

/-- The sleep chosen at the end of a cycle: 10 after a normal cycle, 30 in
the except clause of an aborted cycle; either way the while loop
continues. -/
def cycle_sleep (aborted : Bool) : Nat := if aborted then 30 else 10

/-- Several consecutive dispatch cycles of listen_for_requests, each given
its polled batch; the loop proceeds from one cycle to the next whether or
not a cycle aborted. -/
def run_cycles (s : AgentState) (batches : List (List (MeshMessage × NetResult))) :
    List SentResponse :=
  (batches.map (fun b => (run_batch s b).1)).flatten

/-- Outcome of the GET to the mesh messages endpoint. -/
inductive PollOutcome where
  | resp (status_code : Nat) (messages : Option (List MeshMessage))
  | exn (msg : String)
deriving DecidableEq, Repr

/-- check_mesh_messages: empty when unregistered; empty on a non-200 reply;
empty when the call raises; otherwise the body's messages list (default
empty). -/
def check_mesh_messages (s : AgentState) (net : PollOutcome) : List MeshMessage :=
  match s.mesh_agent_id with
  | none => []
  | some _ =>
    match net with
    | PollOutcome.exn _ => []
    | PollOutcome.resp code msgs => if code = 200 then msgs.getD [] else []

/-- Outcome of the POST to the mesh register endpoint. -/
inductive RegOutcome where
  | resp (status_code : Nat) (agentId : Option String)
  | exn (msg : String)
deriving DecidableEq, Repr

/-- register_with_mesh: on a 200 reply stores the assigned agentId and
returns true; on any other status or a raised exception returns false with
the state unchanged. -/
def register_with_mesh (s : AgentState) (net : RegOutcome) : AgentState × Bool :=
  match net with
  | RegOutcome.exn _ => (s, false)
  | RegOutcome.resp code aid =>
    if code = 200 then ({ s with mesh_agent_id := aid }, true) else (s, false)

/-- Externally visible actions of the agent, for tracing start(). -/
inductive Event where
  | registerAttempt
  | broadcast
  | poll
  | sent (r : SentResponse)
deriving DecidableEq, Repr

/-- The event trace of listen_for_requests over the given polled batches. -/
def listen_trace (s : AgentState) (batches : List (List (MeshMessage × NetResult))) :
    List Event :=
  (batches.map (fun b => Event.poll :: (run_batch s b).1.map Event.sent)).flatten

/-- start(): register; only on success broadcast availability and enter the
listen loop.  On failure nothing further happens. -/
def start (s : AgentState) (regNet : RegOutcome)
    (batches : List (List (MeshMessage × NetResult))) : AgentState × List Event :=
  let r := register_with_mesh s regNet
  if r.2 then
    ({ r.1 with running := true },
     Event.registerAttempt :: Event.broadcast :: listen_trace r.1 batches)
  else (r.1, [Event.registerAttempt])

/-- The two graph-building request kinds. -/
inductive ReqKind where
  | image
  | video
deriving DecidableEq, Repr

/-- The Job Graph Builder as one function of (kind, prompt, options). -/
def build_graph (kind : ReqKind) (prompt : PromptDict) (options : OptionsDict) : List WNode :=
  match kind with
  | ReqKind.image => imageWorkflow prompt options
  | ReqKind.video => videoWorkflow prompt options

/-- Look up a node of a workflow by its key. -/
def getNode (w : List WNode) (nodeId : String) : Option WNode :=
  w.find? (fun n => n.id == nodeId)

/-- Look up one input value of one node of a workflow. -/
def inputOf (w : List WNode) (nodeId key : String) : Option JVal :=
  (getNode w nodeId).bind (fun n => (n.inputs.find? (fun kv => kv.1 == key)).map (fun kv => kv.2))

/-- Whether some input of the node is a reference to the target node. -/
def refsNode (n : WNode) (target : String) : Bool :=
  n.inputs.any (fun kv =>
    match kv.2 with
    | JVal.ref t _ => t == target
    | _ => false)

/-- Abstraction following the specification's data model of InferenceResult:
a result dict carrying an error key is read as status error; otherwise the
abstract status is the dict's own status field. -/
def specStatus (r : ResultDict) : Option String :=
  if r.error.isSome then some "error" else r.status

/-- The specification's InferenceResult invariant, read through specStatus:
status is one of the three legal values, the job handle is present exactly on
non-error results, and the error detail exactly on error results. -/
def goodAbs (r : ResultDict) : Prop :=
  (specStatus r = some "queued" ∨ specStatus r = some "distributed_queued" ∨
    specStatus r = some "error")
  ∧ (r.prompt_id.isSome ↔ ¬ specStatus r = some "error")
  ∧ (r.error.isSome ↔ specStatus r = some "error")

/-- The backend honours its stated interface: a 200 reply carries a
prompt_id. -/
def netProvidesHandle : NetResult → Prop
  | NetResult.resp code pid _ => code = 200 → pid.isSome = true
  | NetResult.exn _ => True

/-- Whether a message's content string fails json decoding. -/
def isMalformed (m : MeshMessage) : Bool :=
  match m.content with
  | some (RawContent.malformed _) => true
  | _ => false

/-- Whether a message decodes to a payload whose type discriminant is
inference_request. -/
def isInferenceRequest (m : MeshMessage) : Bool :=
  match m.content with
  | some (RawContent.dict c) => c.type == some "inference_request"
  | _ => false

/-- A registration outcome the source treats as failure: a raised exception
or any non-200 status. -/
def regFailed : RegOutcome → Prop
  | RegOutcome.exn _ => True
  | RegOutcome.resp code _ => code ≠ 200

/-- A poll outcome the source treats as failure: a raised exception or any
non-200 status. -/
def pollFailed : PollOutcome → Prop
  | PollOutcome.exn _ => True
  | PollOutcome.resp code _ => code ≠ 200

/-- A message whose content string is invalid JSON. -/
def malformedMsg : MeshMessage :=
  { sender := some "peer-a",
    content := some (RawContent.malformed "Expecting value: line 1 column 1") }

/-- A well-formed image_generation request payload. -/
def goodImageContent : ContentDict :=
  { type := some "inference_request", request_type := some "image_generation",
    prompt := some { positive := some "a cat" }, options := none }

/-- A message carrying goodImageContent. -/
def goodImageMsg : MeshMessage :=
  { sender := some "peer-b", content := some (RawContent.dict goodImageContent) }

/-- A successful backend reply carrying a job handle. -/
def netOK : NetResult := NetResult.resp 200 (some "pid-1") none

/-- C10: for every kind among image and video and every (prompt, options),
building the job graph twice with identical inputs yields structurally
identical graphs: graph construction is a pure deterministic function of its
arguments with no hidden state. -/
theorem C10_builder_deterministic (kind : ReqKind) (p : PromptDict) (o : OptionsDict) :
    build_graph kind p o = build_graph kind p o := rfl

/-- C5: for an image_generation request with empty options, the built graph
has seed 42, steps 20, cfg 8, sampler euler, width and height 1024, and the
default baseline checkpoint; it is posted to the backend's standard job
endpoint, and a 200 reply yields a queued result carrying the backend's
returned handle. -/
theorem C5_default_image (s : AgentState) (p : PromptDict) (pid : Option String)
    (wc : Option Nat) :
    inputOf (imageWorkflow p {}) "5" "seed" = some (JVal.nat 42)
    ∧ inputOf (imageWorkflow p {}) "5" "steps" = some (JVal.nat 20)
    ∧ inputOf (imageWorkflow p {}) "5" "cfg" = some (JVal.nat 8)
    ∧ inputOf (imageWorkflow p {}) "5" "sampler_name" = some (JVal.str "euler")
    ∧ inputOf (imageWorkflow p {}) "7" "width" = some (JVal.nat 1024)
    ∧ inputOf (imageWorkflow p {}) "7" "height" = some (JVal.nat 1024)
    ∧ inputOf (imageWorkflow p {}) "6" "ckpt_name"
        = some (JVal.str "sd_xl_base_1.0.safetensors")
    ∧ generate_image s (some p) {} (NetResult.resp 200 pid wc)
        = ([BackendCall.promptPost (s.comfyui_url ++ "/api/prompt")
              (imageWorkflow p {}) "mesh-agent"],
           { status := some "queued", prompt_id := pid }) :=
  ⟨rfl, rfl, rfl, rfl, rfl, rfl, rfl, rfl⟩

/-- C6: every distributed_inference request passes its prompt through
verbatim as the job graph to the backend's distributed-extension endpoint,
with the options' worker-id list verbatim (default empty) and the
delegate-to-primary flag (default false); a 200 reply yields a
distributed_queued result carrying the backend's handle and a worker
count. -/
theorem C6_distributed_passthrough (s : AgentState) (wf : Option PromptDict)
    (o : OptionsDict) (pid : Option String) (wc : Option Nat) :
    queue_distributed_workflow s wf o (NetResult.resp 200 pid wc)
      = ([BackendCall.distPost (s.comfyui_distributed_url ++ "/queue")
            ⟨wf, "mesh-distributed", o.delegate_master.getD false, o.worker_ids.getD []⟩],
         { status := some "distributed_queued", prompt_id := pid,
           worker_count := some (wc.getD 1) })
    ∧ queue_distributed_workflow s wf {} (NetResult.resp 200 pid wc)
        = ([BackendCall.distPost (s.comfyui_distributed_url ++ "/queue")
              ⟨wf, "mesh-distributed", false, []⟩],
           { status := some "distributed_queued", prompt_id := pid,
             worker_count := some (wc.getD 1) }) :=
  ⟨rfl, rfl⟩

/-- C4: in the image job graph, the clip input of both text-conditioning
nodes (3, positive, and 4, negative) is wired to node 4 itself and not to
the checkpoint loader node 6; every node referencing node 6 is among the
sampler, latent, decode and save nodes. -/
theorem C4_clip_wiring (p : PromptDict) (o : OptionsDict) :
    inputOf (imageWorkflow p o) "3" "clip" = some (JVal.ref "4" 0)
    ∧ inputOf (imageWorkflow p o) "4" "clip" = some (JVal.ref "4" 0)
    ∧ (∀ slot, inputOf (imageWorkflow p o) "3" "clip" ≠ some (JVal.ref "6" slot))
    ∧ (∀ slot, inputOf (imageWorkflow p o) "4" "clip" ≠ some (JVal.ref "6" slot))
    ∧ (∀ n ∈ imageWorkflow p o, refsNode n "6" = true →
        n.id = "5" ∨ n.id = "7" ∨ n.id = "8" ∨ n.id = "9") := by
  refine ⟨rfl, rfl, ?_, ?_, ?_⟩
  · intro slot h
    rw [show inputOf (imageWorkflow p o) "3" "clip" = some (JVal.ref "4" 0) from rfl] at h
    simp at h
  · intro slot h
    rw [show inputOf (imageWorkflow p o) "4" "clip" = some (JVal.ref "4" 0) from rfl] at h
    simp at h
  · intro n hn h
    simp only [imageWorkflow, List.mem_cons, List.not_mem_nil, or_false] at hn
    rcases hn with rfl | rfl | rfl | rfl | rfl | rfl | rfl <;>
      simp_all [refsNode]

/-- Witness for C4 at the empty prompt and options. -/
theorem C4_witness :
    inputOf (imageWorkflow {} {}) "3" "clip" = some (JVal.ref "4" 0)
    ∧ inputOf (imageWorkflow {} {}) "4" "clip" = some (JVal.ref "4" 0)
    ∧ (∀ slot, inputOf (imageWorkflow {} {}) "3" "clip" ≠ some (JVal.ref "6" slot))
    ∧ (∀ slot, inputOf (imageWorkflow {} {}) "4" "clip" ≠ some (JVal.ref "6" slot))
    ∧ (∀ n ∈ imageWorkflow {} {}, refsNode n "6" = true →
        n.id = "5" ∨ n.id = "7" ∨ n.id = "8" ∨ n.id = "9") :=
  C4_clip_wiring {} {}

/-- Helper: send_response on a message whose content decodes to a dict
builds and posts the correlated response envelope. -/
lemma send_response_dict (s : AgentState) (msg : MeshMessage) (r : ResultDict)
    (c : ContentDict) (hc : msg.content = some (RawContent.dict c)) :
    send_response s msg r
      = Except.ok ⟨⟨"inference_response", c, r⟩, s.agent_name, msg.sender, "normal"⟩ := by
  simp [send_response, hc, decodeContent]

/-- C3: for every decoded inference_request whose request kind is none of the
three known kinds (including a missing kind), dispatch produces the error
result directly, makes no backend call (so the Job Graph Builder is never
invoked for the message), and still sends an OutboundResponse to the
sender. -/
theorem C3_unknown_kind (s : AgentState) (msg : MeshMessage) (cd : ContentDict)
    (net : NetResult)
    (hmsg : msg.content = some (RawContent.dict cd))
    (ht : cd.type = some "inference_request")
    (h1 : cd.request_type ≠ some "image_generation")
    (h2 : cd.request_type ≠ some "video_generation")
    (h3 : cd.request_type ≠ some "distributed_inference") :
    process_inference_request s msg net
      = ([], some (mkError ("Unknown request type: " ++ pyShowOpt cd.request_type)))
    ∧ specStatus (mkError ("Unknown request type: " ++ pyShowOpt cd.request_type))
        = some "error"
    ∧ run_batch s [(msg, net)]
        = ([⟨⟨"inference_response", cd,
              mkError ("Unknown request type: " ++ pyShowOpt cd.request_type)⟩,
             s.agent_name, msg.sender, "normal"⟩], false) := by
  have hp : process_inference_request s msg net
      = ([], some (mkError ("Unknown request type: " ++ pyShowOpt cd.request_type))) := by
    simp [process_inference_request, hmsg, decodeContent, ht, h1, h2, h3]
  refine ⟨hp, rfl, ?_⟩
  simp [run_batch, hp,
    send_response_dict s msg (mkError ("Unknown request type: " ++ pyShowOpt cd.request_type)) cd hmsg]

/-- A well-formed inference_request payload of an unknown kind. -/
def unknownKindContent : ContentDict :=
  { type := some "inference_request", request_type := some "text_generation" }

/-- A message carrying unknownKindContent. -/
def unknownKindMsg : MeshMessage :=
  { sender := some "peer-c", content := some (RawContent.dict unknownKindContent) }

/-- Witness for C3 at a concrete unknown-kind message. -/
theorem C3_witness :
    (unknownKindMsg.content = some (RawContent.dict unknownKindContent)
      ∧ unknownKindContent.type = some "inference_request"
      ∧ unknownKindContent.request_type ≠ some "image_generation"
      ∧ unknownKindContent.request_type ≠ some "video_generation"
      ∧ unknownKindContent.request_type ≠ some "distributed_inference")
    ∧ (process_inference_request (agentInit none) unknownKindMsg netOK
        = ([], some (mkError ("Unknown request type: "
            ++ pyShowOpt unknownKindContent.request_type)))
      ∧ specStatus (mkError ("Unknown request type: "
            ++ pyShowOpt unknownKindContent.request_type)) = some "error"
      ∧ run_batch (agentInit none) [(unknownKindMsg, netOK)]
          = ([⟨⟨"inference_response", unknownKindContent,
                mkError ("Unknown request type: "
                  ++ pyShowOpt unknownKindContent.request_type)⟩,
               (agentInit none).agent_name, unknownKindMsg.sender, "normal"⟩], false)) :=
  ⟨⟨rfl, rfl, by decide, by decide, by decide⟩,
   C3_unknown_kind (agentInit none) unknownKindMsg unknownKindContent netOK
     rfl rfl (by decide) (by decide) (by decide)⟩

/-- C7: if registration fails (exception, timeout or non-200 status), start
aborts before any announcement or poll: the trace holds only the
registration attempt, and the assigned network id remains unset. -/
theorem C7_registration_failure (name : Option String) (regNet : RegOutcome)
    (batches : List (List (MeshMessage × NetResult))) (h : regFailed regNet) :
    start (agentInit name) regNet batches = (agentInit name, [Event.registerAttempt])
    ∧ (start (agentInit name) regNet batches).1.mesh_agent_id = none := by
  have hs : start (agentInit name) regNet batches
      = (agentInit name, [Event.registerAttempt]) := by
    cases regNet with
    | exn m => rfl
    | resp code aid =>
      have hc : code ≠ 200 := h
      simp [start, register_with_mesh, hc]
  exact ⟨hs, by rw [hs]; rfl⟩

/-- Witness for C7 at a concrete timed-out registration. -/
theorem C7_witness :
    regFailed (RegOutcome.exn "timeout")
    ∧ (start (agentInit none) (RegOutcome.exn "timeout") [[(goodImageMsg, netOK)]]
        = (agentInit none, [Event.registerAttempt])
      ∧ (start (agentInit none) (RegOutcome.exn "timeout")
          [[(goodImageMsg, netOK)]]).1.mesh_agent_id = none) :=
  ⟨True.intro,
   C7_registration_failure none (RegOutcome.exn "timeout") [[(goodImageMsg, netOK)]]
     True.intro⟩

/-- C8: poll returns the empty message list whenever the node is
unregistered or the transport call raises or replies with a non-200 status;
being a total function it never raises to its caller. -/
theorem C8_poll_degrades (s : AgentState) (net : PollOutcome)
    (h : s.mesh_agent_id = none ∨ pollFailed net) :
    check_mesh_messages s net = [] := by
  rcases h with h | h
  · simp [check_mesh_messages, h]
  · unfold check_mesh_messages
    cases s.mesh_agent_id with
    | none => rfl
    | some a =>
      cases net with
      | exn m => rfl
      | resp code msgs =>
        have hc : code ≠ 200 := h
        simp [hc]

/-- Witness for C8 at a concrete unregistered agent and failing poll. -/
theorem C8_witness :
    ((agentInit none).mesh_agent_id = none
      ∨ pollFailed (PollOutcome.resp 500 none))
    ∧ check_mesh_messages (agentInit none) (PollOutcome.resp 500 none) = [] :=
  ⟨Or.inl rfl, C8_poll_degrades (agentInit none) (PollOutcome.resp 500 none) (Or.inl rfl)⟩

/-- C9: a polled message whose decoded content has a type discriminant other
than inference_request (including a message with no content, decoded as an
empty payload) is skipped without error and no OutboundResponse is sent for
it. -/
theorem C9_non_ir_skip (s : AgentState) (msg : MeshMessage) (net : NetResult)
    (h : msg.content = none
      ∨ ∃ cd, msg.content = some (RawContent.dict cd)
          ∧ cd.type ≠ some "inference_request") :
    process_inference_request s msg net = ([], none)
    ∧ run_batch s [(msg, net)] = ([], false) := by
  have hp : process_inference_request s msg net = ([], none) := by
    rcases h with h | ⟨cd, hc, ht⟩
    · simp [process_inference_request, h, decodeContent]
    · simp [process_inference_request, hc, decodeContent, ht]
  exact ⟨hp, by simp [run_batch, hp]⟩

/-- A message of another type (service_announcement). -/
def announceMsg : MeshMessage :=
  { sender := some "peer-d",
    content := some (RawContent.dict { type := some "service_announcement" }) }

/-- Witness for C9 at a concrete non-inference message. -/
theorem C9_witness :
    (announceMsg.content = none
      ∨ ∃ cd, announceMsg.content = some (RawContent.dict cd)
          ∧ cd.type ≠ some "inference_request")
    ∧ (process_inference_request (agentInit none) announceMsg netOK = ([], none)
      ∧ run_batch (agentInit none) [(announceMsg, netOK)] = ([], false)) :=
  ⟨Or.inr ⟨{ type := some "service_announcement" }, rfl, by decide⟩,
   C9_non_ir_skip (agentInit none) announceMsg netOK
     (Or.inr ⟨{ type := some "service_announcement" }, rfl, by decide⟩)⟩

/-- Helper: every result generate_image produces satisfies the abstract
InferenceResult invariant, assuming the backend honours its interface. -/
lemma goodAbs_image (s : AgentState) (p : Option PromptDict) (o : OptionsDict)
    (net : NetResult) (hnet : netProvidesHandle net) :
    goodAbs (generate_image s p o net).2 := by
  cases p with
  | none => simp [generate_image, goodAbs, specStatus, mkError]
  | some pd =>
    cases net with
    | exn m => simp [generate_image, goodAbs, specStatus, mkError]
    | resp code pid wc =>
      by_cases hc : code = 200
      · subst hc
        have hpid : pid.isSome = true := hnet rfl
        simp [generate_image, goodAbs, specStatus, hpid]
      · simp [generate_image, goodAbs, specStatus, mkError, hc]

/-- Helper: the same invariant for generate_video. -/
lemma goodAbs_video (s : AgentState) (p : Option PromptDict) (o : OptionsDict)
    (net : NetResult) (hnet : netProvidesHandle net) :
    goodAbs (generate_video s p o net).2 := by
  cases p with
  | none => simp [generate_video, goodAbs, specStatus, mkError]
  | some pd =>
    cases net with
    | exn m => simp [generate_video, goodAbs, specStatus, mkError]
    | resp code pid wc =>
      by_cases hc : code = 200
      · subst hc
        have hpid : pid.isSome = true := hnet rfl
        simp [generate_video, goodAbs, specStatus, hpid]
      · simp [generate_video, goodAbs, specStatus, mkError, hc]

/-- Helper: the same invariant for queue_distributed_workflow. -/
lemma goodAbs_dist (s : AgentState) (p : Option PromptDict) (o : OptionsDict)
    (net : NetResult) (hnet : netProvidesHandle net) :
    goodAbs (queue_distributed_workflow s p o net).2 := by
  cases net with
  | exn m => simp [queue_distributed_workflow, goodAbs, specStatus, mkError]
  | resp code pid wc =>
    by_cases hc : code = 200
    · subst hc
      have hpid : pid.isSome = true := hnet rfl
      simp [queue_distributed_workflow, goodAbs, specStatus, hpid]
    · simp [queue_distributed_workflow, goodAbs, specStatus, mkError, hc]

/-- C2: every InferenceResult produced by the three submission paths has an
abstract status among queued, distributed_queued and error, carries the
backend job handle exactly when the status is not error, and the error
detail exactly when it is; a non-success backend HTTP status on an image
request yields an error result naming the backend status, which is still
sent back to the original sender. -/
theorem C2_result_invariant (s : AgentState) (p : Option PromptDict) (o : OptionsDict)
    (net : NetResult) (code : Nat) (pid : Option String) (wc : Option Nat)
    (pd : PromptDict) (msg : MeshMessage) (cd : ContentDict)
    (hnet : netProvidesHandle net) (hcode : code ≠ 200)
    (hmsg : msg.content = some (RawContent.dict cd))
    (ht : cd.type = some "inference_request")
    (hrt : cd.request_type = some "image_generation")
    (hpd : cd.prompt = some pd) :
    goodAbs (generate_image s p o net).2
    ∧ goodAbs (generate_video s p o net).2
    ∧ goodAbs (queue_distributed_workflow s p o net).2
    ∧ run_batch s [(msg, NetResult.resp code pid wc)]
        = ([⟨⟨"inference_response", cd, mkError ("ComfyUI error: " ++ toString code)⟩,
             s.agent_name, msg.sender, "normal"⟩], false) := by
  refine ⟨goodAbs_image s p o net hnet, goodAbs_video s p o net hnet,
    goodAbs_dist s p o net hnet, ?_⟩
  have hpr : (process_inference_request s msg (NetResult.resp code pid wc)).2
      = some (mkError ("ComfyUI error: " ++ toString code)) := by
    simp [process_inference_request, hmsg, decodeContent, ht, hrt, hpd,
      generate_image, hcode]
  simp [run_batch, hpr,
    send_response_dict s msg (mkError ("ComfyUI error: " ++ toString code)) cd hmsg]

/-- Witness for C2 at a concrete failed backend reply and image request. -/
theorem C2_witness :
    (netProvidesHandle (NetResult.exn "timeout")
      ∧ (500 : Nat) ≠ 200
      ∧ goodImageMsg.content = some (RawContent.dict goodImageContent)
      ∧ goodImageContent.type = some "inference_request"
      ∧ goodImageContent.request_type = some "image_generation"
      ∧ goodImageContent.prompt = some { positive := some "a cat" })
    ∧ (goodAbs (generate_image (agentInit none) (some {}) {} (NetResult.exn "timeout")).2
      ∧ goodAbs (generate_video (agentInit none) (some {}) {} (NetResult.exn "timeout")).2
      ∧ goodAbs (queue_distributed_workflow (agentInit none) (some {}) {}
          (NetResult.exn "timeout")).2
      ∧ run_batch (agentInit none) [(goodImageMsg, NetResult.resp 500 none none)]
          = ([⟨⟨"inference_response", goodImageContent,
                mkError ("ComfyUI error: " ++ toString 500)⟩,
               (agentInit none).agent_name, goodImageMsg.sender, "normal"⟩], false)) :=
  ⟨⟨True.intro, by decide, rfl, rfl, rfl, rfl⟩,
   C2_result_invariant (agentInit none) (some {}) {} (NetResult.exn "timeout")
     500 none none { positive := some "a cat" } goodImageMsg goodImageContent
     True.intro (by decide) rfl rfl rfl rfl⟩

/-- Helper: a message is malformed exactly when its content raises on
decoding. -/
lemma isMalformed_iff (m : MeshMessage) :
    isMalformed m = true ↔ ∃ e, m.content = some (RawContent.malformed e) := by
  cases h : m.content with
  | none => simp [isMalformed, h]
  | some rc =>
    cases rc with
    | malformed e => simp [isMalformed, h]
    | dict c => simp [isMalformed, h]

/-- Helper: a well-formed inference_request always produces some result dict
(every dispatch branch returns one). -/
lemma process_ir_isSome (s : AgentState) (msg : MeshMessage) (net : NetResult)
    (cd : ContentDict) (hc : msg.content = some (RawContent.dict cd))
    (ht : cd.type = some "inference_request") :
    ((process_inference_request s msg net).2).isSome = true := by
  simp only [process_inference_request, hc, decodeContent, ht, if_true]
  split_ifs <;> simp

/-- Helper: processing then sending a batch whose prefix before the first
malformed message is all well formed sends exactly one response per
inference_request message of that prefix, then aborts the cycle at the
malformed message. -/
lemma run_batch_abort_aux (s : AgentState) (m : MeshMessage) (net : NetResult)
    (rest : List (MeshMessage × NetResult)) (hm : isMalformed m = true) :
    ∀ pre : List (MeshMessage × NetResult),
      (pre.all fun x => !isMalformed x.1) = true →
      (run_batch s (pre ++ (m, net) :: rest)).1.length
        = (pre.filter fun x => isInferenceRequest x.1).length
      ∧ (run_batch s (pre ++ (m, net) :: rest)).2 = true := by
  intro pre
  induction pre with
  | nil =>
    intro _
    obtain ⟨e, he⟩ := (isMalformed_iff m).mp hm
    have hp : (process_inference_request s m net).2 = some (mkError e) := by
      simp [process_inference_request, he, decodeContent]
    have hs : send_response s m (mkError e) = Except.error e := by
      simp [send_response, he, decodeContent]
    constructor
    · simp [run_batch, hp, hs]
    · simp [run_batch, hp, hs]
  | cons x pre ih =>
    intro hall
    simp only [List.all_cons, Bool.and_eq_true, Bool.not_eq_true'] at hall
    obtain ⟨hx, hall⟩ := hall
    obtain ⟨xm, xnet⟩ := x
    simp only at hx
    cases hc : xm.content with
    | none =>
      have hp : (process_inference_request s xm xnet).2 = none := by
        simp [process_inference_request, hc, decodeContent]
      have hir : isInferenceRequest xm = false := by simp [isInferenceRequest, hc]
      rw [List.cons_append]
      simp only [run_batch, hp, List.filter_cons, hir]
      exact ih hall
    | some rc =>
      cases rc with
      | malformed e => simp [isMalformed, hc] at hx
      | dict c =>
        by_cases ht : c.type = some "inference_request"
        · obtain ⟨r, hr⟩ := Option.isSome_iff_exists.mp
            (process_ir_isSome s xm xnet c hc ht)
          have hs := send_response_dict s xm r c hc
          have hir : isInferenceRequest xm = true := by
            simp [isInferenceRequest, hc, ht]
          obtain ⟨ih1, ih2⟩ := ih hall
          rw [List.cons_append]
          simp only [run_batch, hr, hs, List.filter_cons, hir, if_true]
          exact ⟨by simp [ih1], by simp [ih2]⟩
        · have hp : (process_inference_request s xm xnet).2 = none := by
            simp [process_inference_request, hc, decodeContent, ht]
          have hir : isInferenceRequest xm = false := by
            simp [isInferenceRequest, hc, ht]
          rw [List.cons_append]
          simp only [run_batch, hp, List.filter_cons, hir]
          exact ih hall

/-- C1 counterexample: a batch of N = 2 messages of which M = 1 is malformed
sends 0 OutboundResponses, not N − M = 1: the malformed message is not
skipped but answered with an error dict, and sending that answer re-decodes
the bad content and aborts the batch, so the following well-formed message
is never processed. -/
theorem C1_counterexample :
    (run_batch (agentInit none)
      [(malformedMsg, netOK), (goodImageMsg, netOK)]).1.length ≠ 2 - 1 := by
  decide

/-- C1 amended: messages of a polled batch are processed in order; each
well-formed inference_request message before the first malformed one is
answered with exactly one OutboundResponse; a malformed message's decode
exception is caught during processing and converted into an error result,
but sending that result re-decodes the original content outside any handler
and the raised exception aborts the rest of the batch, so no response is
sent for it or for any later message of the batch; the dispatch loop still
proceeds to the next cycle after the longer back-off sleep. -/
theorem C1_batch_abort (s : AgentState) (pre rest : List (MeshMessage × NetResult))
    (m : MeshMessage) (net : NetResult)
    (nextBatch : List (MeshMessage × NetResult))
    (hpre : (pre.all fun x => !isMalformed x.1) = true)
    (hm : isMalformed m = true) :
    (run_batch s (pre ++ (m, net) :: rest)).1.length
      = (pre.filter fun x => isInferenceRequest x.1).length
    ∧ (run_batch s (pre ++ (m, net) :: rest)).2 = true
    ∧ run_cycles s [pre ++ (m, net) :: rest, nextBatch]
        = (run_batch s (pre ++ (m, net) :: rest)).1 ++ (run_batch s nextBatch).1
    ∧ cycle_sleep (run_batch s (pre ++ (m, net) :: rest)).2 = 30 := by
  obtain ⟨h1, h2⟩ := run_batch_abort_aux s m net rest hm pre hpre
  exact ⟨h1, h2, by simp [run_cycles], by simp [cycle_sleep, h2]⟩

/-- Witness for C1 amended: one good message, then a malformed one, then
another good one; exactly one response is sent, the cycle aborts, and the
next cycle still runs. -/
theorem C1_witness :
    ((([(goodImageMsg, netOK)] : List (MeshMessage × NetResult)).all
        fun x => !isMalformed x.1) = true
      ∧ isMalformed malformedMsg = true)
    ∧ ((run_batch (agentInit none)
          ([(goodImageMsg, netOK)] ++ (malformedMsg, netOK) :: [(goodImageMsg, netOK)])).1.length
        = (([(goodImageMsg, netOK)] : List (MeshMessage × NetResult)).filter
            fun x => isInferenceRequest x.1).length
      ∧ (run_batch (agentInit none)
          ([(goodImageMsg, netOK)] ++ (malformedMsg, netOK) :: [(goodImageMsg, netOK)])).2 = true
      ∧ run_cycles (agentInit none)
          [[(goodImageMsg, netOK)] ++ (malformedMsg, netOK) :: [(goodImageMsg, netOK)],
           [(goodImageMsg, netOK)]]
          = (run_batch (agentInit none)
              ([(goodImageMsg, netOK)] ++ (malformedMsg, netOK) :: [(goodImageMsg, netOK)])).1
            ++ (run_batch (agentInit none) [(goodImageMsg, netOK)]).1
      ∧ cycle_sleep (run_batch (agentInit none)
          ([(goodImageMsg, netOK)] ++ (malformedMsg, netOK) :: [(goodImageMsg, netOK)])).2 = 30) :=
  ⟨⟨by decide, by decide⟩,
   C1_batch_abort (agentInit none) [(goodImageMsg, netOK)] [(goodImageMsg, netOK)]
     malformedMsg netOK [(goodImageMsg, netOK)] (by decide) (by decide)⟩

end AgentMesh
